import Mathlib

/-!
Shallow embedding of the evidence pipeline of `ai-scientist-lab-notebook`:
the RAG worker (`src/workers/src/workers/rag_worker/rag_worker.py`) and the
embed worker (`src/workers/src/workers/embed_worker/embed_worker.py`).

Python strings are modelled as `String` (or `List Char` where character
counts matter), Python floats as `ℚ`, Python ints as `ℕ`/`ℤ`, Python dicts
with fixed key sets as structures, and `dict.get` defaults as `Option`
fields.  The external sentence-transformer embedding model is opaque in the
source; it is modelled as a per-text function `f : String → E` applied to
each element of the batch (the provider contract: one vector per input
string, in input order).
-/

namespace LabNotebook

/-! ## RAG worker data model (`rag_worker.py`) -/

/-- Evidence kind: the `type` field of evidence dicts (`'text_chunk'` or
`'table'`). -/
inductive EvKind where
  | text_chunk
  | table
deriving DecidableEq, Repr

/-- An evidence candidate dict as built in `RAGWorker.retrieve_evidence`.
`source_id` is the `chunk_id` of a text chunk or the `table_id` of a table;
`source` and `title` are the optional extra keys of the mock text/table
evidence.  Content is kept as a character list so that snippet-length facts
are about character counts, as in Python. -/
structure Ev where
  kind : EvKind
  content : List Char
  document_id : String
  source_id : String
  page : ℕ
  score : ℚ
  source : Option String := none
  title : Option String := none
deriving DecidableEq, Repr

/-- The plan dict built by `RAGWorker.plan_answer`. -/
structure AnswerPlan where
  approach : String
  evidence_types : List String
  max_evidence : ℕ
  citation_strategy : String
  confidence_threshold : ℚ
deriving DecidableEq, Repr

/-- `RAGWorker.plan_answer` returns this fixed plan dict (lines 78-84). -/
def plan_answer : AnswerPlan :=
  { approach := "hybrid_retrieval"
    evidence_types := ["text_chunks", "tables", "figures"]
    max_evidence := 5
    citation_strategy := "evidence_gating"
    confidence_threshold := 7/10 }

/-- A citation dict as built in `RAGWorker.generate_answer` (lines 168-183):
`chunk_id` is present exactly for text-chunk evidence, `table_id` exactly for
table evidence. -/
structure Citation where
  kind : EvKind
  document_id : String
  page : ℕ
  snippet : List Char
  score : ℚ
  chunk_id : Option String
  table_id : Option String
deriving DecidableEq, Repr

/-- Build one citation from one evidence item (`rag_worker.py` lines 170-183):
the snippet is `content[:200] + '...'` when the content has more than 200
characters, else the content itself. -/
def mkCitation (ev : Ev) : Citation :=
  { kind := ev.kind
    document_id := ev.document_id
    page := ev.page
    snippet :=
      if 200 < ev.content.length then ev.content.take 200 ++ ['.', '.', '.']
      else ev.content
    score := ev.score
    chunk_id := match ev.kind with | .text_chunk => some ev.source_id | .table => none
    table_id := match ev.kind with | .table => some ev.source_id | .text_chunk => none }

/-- The `reasoning` dict of an answer.  The insufficient-evidence branch emits
only `approach` and `evidence_count`; the synthesis branch also emits
`evidence_types` and `avg_evidence_score`, modelled as optional fields. -/
structure Reasoning where
  approach : String
  evidence_count : ℕ
  evidence_types : Option (List EvKind)
  avg_evidence_score : Option ℚ
deriving DecidableEq, Repr

/-- The answer dict returned by `RAGWorker.generate_answer`. -/
structure AnswerResult where
  text : String
  confidence : ℚ
  citations : List Citation
  reasoning : Reasoning
deriving DecidableEq, Repr

/-- One line of `RAGWorker._generate_answer_text` (lines 219-223), for the
1-based evidence index `i`. -/
def evidenceLine (i : ℕ) (ev : Ev) : String :=
  match ev.kind with
  | .text_chunk => "Evidence " ++ toString i ++ ": " ++ String.mk (ev.content.take 100) ++ "..."
  | .table => "Evidence " ++ toString i ++ ": Table data from " ++ ev.title.getD "unknown table"

/-- The numbered evidence lines, mirroring `enumerate(evidence, 1)`. -/
def evidenceLines : ℕ → List Ev → List String
  | _, [] => []
  | i, ev :: rest => evidenceLine i ev :: evidenceLines (i + 1) rest

/-- `RAGWorker._generate_answer_text` (lines 208-227). -/
def generate_answer_text (question : String) (evidence : List Ev) : String :=
  if evidence = [] then
    "I cannot provide a reliable answer based on the available evidence."
  else
    String.intercalate " "
      (("Based on the available evidence, I can provide the following answer to your question: \x27"
          ++ question ++ "\x27")
        :: (evidenceLines 1 evidence
            ++ ["Please refer to the citations for the complete source information."]))

/-- `RAGWorker.generate_answer` (lines 150-202): with no evidence, the fixed
insufficient-evidence result (confidence `0.0`, no citations); otherwise one
citation per evidence item, `confidence = min(mean score, 0.95)`, and a
reasoning dict with the approach, evidence count, deduplicated evidence kinds
(`list(set(...))`) and the mean score. -/
def generate_answer (question : String) (evidence : List Ev) (plan : AnswerPlan) :
    AnswerResult :=
  if evidence = [] then
    { text := "I cannot provide a reliable answer based on the available evidence. Please ensure you have uploaded relevant documents."
      confidence := 0
      citations := []
      reasoning :=
        { approach := "insufficient_evidence", evidence_count := 0
          evidence_types := none, avg_evidence_score := none } }
  else
    let citations := evidence.map mkCitation
    let avg_score := (evidence.map Ev.score).sum / (evidence.length : ℚ)
    let confidence := min avg_score (95/100)
    { text := generate_answer_text question evidence
      confidence := confidence
      citations := citations
      reasoning :=
        { approach := plan.approach
          evidence_count := evidence.length
          evidence_types := some (evidence.map Ev.kind).dedup
          avg_evidence_score := some avg_score } }

/-- Stable descending insertion by `score`: the element being inserted goes
after every earlier element with a greater-or-equal score, exactly the order
produced by Python's stable `list.sort(key=..., reverse=True)`. -/
def insertByScoreDesc (x : Ev) : List Ev → List Ev
  | [] => [x]
  | y :: ys => if x.score < y.score then y :: insertByScoreDesc x ys else x :: y :: ys

/-- Stable sort by `score` descending, the semantics of line 139 of
`rag_worker.py`: `evidence.sort(key=lambda x: x['score'], reverse=True)`. -/
def sortByScoreDesc : List Ev → List Ev
  | [] => []
  | x :: xs => insertByScoreDesc x (sortByScoreDesc xs)

/-- `RAGWorker.retrieve_evidence` (lines 92-144), with the candidate pool as a
parameter standing where the source has a `TODO` database fetch (the shipped
code fills the pool with the fixed mock evidence `mock_evidence` below): sort
the pool by score descending, then truncate to `plan.max_evidence`.  No
filtering of any kind is applied. -/
def retrieve_evidence (candidates : List Ev) (plan : AnswerPlan) : List Ev :=
  (sortByScoreDesc candidates).take plan.max_evidence

/-- First mock text chunk of `retrieve_evidence` (lines 102-110). -/
def mock_text_evidence_1 : Ev :=
  { kind := .text_chunk
    content := "Sample text evidence that might be relevant to the question.".data
    document_id := "doc-1", source_id := "chunk-1", page := 1, score := 85/100
    source := some "abstract" }

/-- Second mock text chunk of `retrieve_evidence` (lines 111-119). -/
def mock_text_evidence_2 : Ev :=
  { kind := .text_chunk
    content := "Another piece of evidence from the methods section.".data
    document_id := "doc-1", source_id := "chunk-2", page := 3, score := 72/100
    source := some "methods" }

/-- Mock table evidence of `retrieve_evidence` (lines 123-133). -/
def mock_table_evidence_1 : Ev :=
  { kind := .table
    content := "Sample table data".data
    document_id := "doc-1", source_id := "table-1", page := 5, score := 68/100
    title := some "Experimental Results" }

/-- The fixed candidate pool the shipped `retrieve_evidence` builds
(lines 101-136): the two text chunks followed by the table evidence. -/
def mock_evidence : List Ev :=
  [mock_text_evidence_1, mock_text_evidence_2, mock_table_evidence_1]

/-- `RAGWorker.process_question` steps 1-3 (lines 41-48): plan, retrieve,
generate.  The candidate pool is the same parameter as in
`retrieve_evidence`; the source additionally wraps the result into a dict
with the session id, which carries no further answer content. -/
def process_question (candidates : List Ev) (question : String) : AnswerResult :=
  generate_answer question (retrieve_evidence candidates plan_answer) plan_answer

/-! ## Embed worker (`embed_worker.py`) -/

/-- Request metadata dicts (`embed_worker.py` lines 97-102 and 153-157,
169-171), modelled with optional fields covering both the chunk shape
(`document_id`, `section`, `page_from`, `page_to` — `section` is renamed
`section_label` because `section` is a Lean keyword) and the table shape
(`document_id`, `table_id`, `page`). -/
structure Metadata where
  document_id : Option String := none
  section_label : Option String := none
  page_from : Option ℕ := none
  page_to : Option ℕ := none
  table_id : Option String := none
  page : Option ℕ := none
deriving DecidableEq, Repr

/-- The `EmbeddingRequest` dataclass (`embed_worker.py` lines 19-26). -/
structure EmbeddingRequest where
  id : String
  text : String
  type : String
  metadata : Metadata
  priority : ℤ := 0
deriving DecidableEq, Repr

/-- `EmbedWorker.add_request` (lines 56-69) acting on the queue size: when the
queue already holds `max_queue_size` items the request is dropped and `False`
is returned; otherwise it is enqueued and `True` is returned.  The pair is
(returned boolean, queue size afterwards). -/
def add_request (max_queue_size queue : ℕ) : Bool × ℕ :=
  if max_queue_size ≤ queue then (false, queue) else (true, queue + 1)

/-- `n` consecutive `add_request` calls against a queue of current size
`queue` with no consumer draining it, returning the list of booleans the
calls returned. -/
def runSubmits (max_queue_size : ℕ) : ℕ → ℕ → List Bool
  | _queue, 0 => []
  | queue, n + 1 =>
    (add_request max_queue_size queue).1
      :: runSubmits max_queue_size (add_request max_queue_size queue).2 n

/-- `EmbedWorker._process_batch` (lines 238-255) together with
`_get_embeddings`: the provider is called once on the batch texts in request
order (the first component records that single call's argument list), and the
results are zipped back onto the requests by position (the second
component). -/
def process_batch {E : Type} (f : String → E) (batch : List EmbeddingRequest) :
    List String × List (EmbeddingRequest × E) :=
  let texts := batch.map EmbeddingRequest.text
  (texts, batch.zip (texts.map f))

/-- A chunk record as consumed by `EmbedWorker.process_chunks` (`chunk.get`
accesses on lines 94-101); `section` is renamed `section_label`. -/
structure Chunk where
  id : Option String := none
  text : String := ""
  section_label : Option String := none
  page_from : Option ℕ := none
  page_to : Option ℕ := none
deriving DecidableEq, Repr

/-- The embedding request built for one chunk in `EmbedWorker.process_chunks`
(lines 92-104); `i` is the index used for the fallback id
`f"chunk_{len(requests)}"`. -/
def chunk_request (document_id : Option String) (i : ℕ) (c : Chunk) : EmbeddingRequest :=
  { id := c.id.getD ("chunk_" ++ toString i)
    text := c.text
    type := "text"
    metadata :=
      { document_id := document_id
        section_label := c.section_label
        page_from := c.page_from
        page_to := c.page_to } }

/-- The request list of `process_chunks`, one request per chunk in chunk
order. -/
def chunk_requests (document_id : Option String) : ℕ → List Chunk → List EmbeddingRequest
  | _, [] => []
  | i, c :: cs => chunk_request document_id i c :: chunk_requests document_id (i + 1) cs

/-- `EmbedWorker.process_chunks` (lines 71-117): build one request per chunk,
embed all request texts in one provider call, and zip the embeddings back
onto the chunks by position. -/
def process_chunks {E : Type} (f : String → E) (document_id : Option String)
    (chunks : List Chunk) : List (Chunk × E) :=
  chunks.zip (((chunk_requests document_id 0 chunks).map EmbeddingRequest.text).map f)

/-- A column of a table schema (`_table_schema_to_text`, lines 302-309):
`col.get('name', 'unknown')`, `col.get('type', 'unknown')`, and an optional
`unit` that is only printed when truthy (present and non-empty). -/
structure TableColumn where
  name : Option String := none
  type : Option String := none
  unit : Option String := none
deriving DecidableEq, Repr

/-- A table record as consumed by `EmbedWorker.process_tables` (the
`table.get` accesses on lines 148-171): `schema := none` covers a missing or
column-less schema dict (the `if not schema or 'columns' not in schema`
test), `data` holds the rows with cells already rendered by `str`. -/
structure Table where
  id : Option String := none
  schema : Option (List TableColumn) := none
  data : List (List String) := []
  page : Option ℕ := none
deriving DecidableEq, Repr

/-- The text printed for one schema column (lines 302-309). -/
def column_text (col : TableColumn) : String :=
  "Column: " ++ col.name.getD "unknown" ++ ", Type: " ++ col.type.getD "unknown"
    ++ (match col.unit with
        | some u => if u = "" then "" else ", Unit: " ++ u
        | none => "")

/-- `EmbedWorker._table_schema_to_text` (lines 296-311). -/
def table_schema_to_text (schema : Option (List TableColumn)) : String :=
  match schema with
  | none => ""
  | some cols => String.intercalate "; " (cols.map column_text)

/-- `EmbedWorker._table_content_to_text` (lines 313-327): empty data gives the
empty string; otherwise the first `max_rows = 5` rows are joined, cells with
`", "` and rows with `"; "`. -/
def table_content_to_text (data : List (List String)) : String :=
  if data = [] then ""
  else String.intercalate "; " ((data.take 5).map (fun row => String.intercalate ", " row))

/-- The schema embedding request of one table (`process_tables`,
lines 147-159). -/
def schema_request (document_id : Option String) (t : Table) : EmbeddingRequest :=
  { id := t.id.getD "table" ++ "_schema"
    text := table_schema_to_text t.schema
    type := "table_schema"
    metadata := { document_id := document_id, table_id := t.id, page := t.page } }

/-- The content embedding request of one table (`process_tables`,
lines 161-173). -/
def content_request (document_id : Option String) (t : Table) : EmbeddingRequest :=
  { id := t.id.getD "table" ++ "_content"
    text := table_content_to_text t.data
    type := "table_content"
    metadata := { document_id := document_id, table_id := t.id, page := t.page } }

/-- The request list built by the `for table in tables` loop of
`process_tables` (lines 146-173): per table, the schema request is appended
first, then the content request. -/
def table_requests (document_id : Option String) : List Table → List EmbeddingRequest
  | [] => []
  | t :: ts => schema_request document_id t :: content_request document_id t
      :: table_requests document_id ts

/-- A table with its two embeddings attached (the `schema_embedding` /
`content_embedding` keys written on lines 183-184). -/
structure EmbeddedTable (E : Type) where
  table : Table
  schema_embedding : E
  content_embedding : E
deriving Repr

/-- The attachment loop of `process_tables` (lines 179-184):
`for i, table in enumerate(tables)`, table `i` receives the embeddings at
batch positions `2*i` and `2*i + 1`.  Indexing is modelled with `getD`; the
indices are always in range for the list built by `process_tables` (proved
below), so the default is never consulted there. -/
def attach_embeddings {E : Type} (d : E) (embs : List E) : ℕ → List Table → List (EmbeddedTable E)
  | _, [] => []
  | i, t :: ts =>
    { table := t, schema_embedding := embs.getD (2*i) d, content_embedding := embs.getD (2*i+1) d }
      :: attach_embeddings d embs (i + 1) ts

/-- `EmbedWorker.process_tables` (lines 125-190): build two requests per
table, embed all request texts in one provider call (`_process_embeddings`),
and attach the embeddings at positions `2*i` and `2*i + 1` to table `i`. -/
def process_tables {E : Type} (f : String → E) (document_id : Option String)
    (tables : List Table) : List (EmbeddedTable E) :=
  attach_embeddings (f "") (((table_requests document_id tables).map EmbeddingRequest.text).map f)
    0 tables

/-! ## Concrete inputs used in counterexamples and witnesses -/

/-- A single low-scoring evidence candidate: score `0.3`, below the plan's
confidence threshold of `0.7`. -/
def low_evidence : Ev :=
  { kind := .text_chunk
    content := "Some unrelated content.".data
    document_id := "doc-1", source_id := "chunk-1", page := 1, score := 3/10 }

/-- An evidence candidate whose content has 201 characters, one more than the
truncation cutoff. -/
def long_evidence : Ev :=
  { kind := .text_chunk
    content := List.replicate 201 'a'
    document_id := "doc-1", source_id := "chunk-1", page := 1, score := 9/10 }

/-- Tie candidate on page 5 of `doc-9`, score `0.5`. -/
def tie_evidence_a : Ev :=
  { kind := .text_chunk, content := "tie evidence a".data
    document_id := "doc-9", source_id := "chunk-a", page := 5, score := 1/2 }

/-- Tie candidate on page 2 of the same document with the same score, listed
after `tie_evidence_a` in the pool. -/
def tie_evidence_b : Ev :=
  { kind := .text_chunk, content := "tie evidence b".data
    document_id := "doc-9", source_id := "chunk-b", page := 2, score := 1/2 }

/-- First of two contradictory evidence items: asserts 37°C as the optimal
temperature. -/
def contra_evidence_a : Ev :=
  { kind := .text_chunk, content := "The optimal temperature is 37°C.".data
    document_id := "doc-1", source_id := "chunk-1", page := 1, score := 95/100 }

/-- Second contradictory item: asserts 25°C as the optimal temperature for
the same attribute. -/
def contra_evidence_b : Ev :=
  { kind := .text_chunk, content := "The optimal temperature is 25°C.".data
    document_id := "doc-1", source_id := "chunk-2", page := 2, score := 95/100 }

/-- Non-contradictory counterpart of `contra_evidence_a`, same score. -/
def plain_evidence_a : Ev :=
  { kind := .text_chunk, content := "The enzyme activity was measured at 37°C.".data
    document_id := "doc-1", source_id := "chunk-1", page := 1, score := 95/100 }

/-- Non-contradictory counterpart of `contra_evidence_b`, same score. -/
def plain_evidence_b : Ev :=
  { kind := .text_chunk, content := "Results showed peak activity at 37°C.".data
    document_id := "doc-1", source_id := "chunk-2", page := 2, score := 95/100 }

/-- Modelled from the spec: the ranking order §3 asserts for every
evidence-candidate list — `combined_score` descending, ties broken by
`(document_id, page)` ascending.  This is the spec-side ordering, stated to
be compared against the order the code actually produces. -/
def specRankOrdered (l : List Ev) : Prop :=
  l.Pairwise (fun a b =>
    b.score < a.score ∨
      (b.score = a.score ∧
        (a.document_id < b.document_id ∨
          (a.document_id = b.document_id ∧ a.page ≤ b.page))))

/-! ## Helper lemmas -/

theorem mem_insertByScoreDesc {x z : Ev} {l : List Ev} :
    z ∈ insertByScoreDesc x l ↔ z = x ∨ z ∈ l := by
  induction l with
  | nil => simp [insertByScoreDesc]
  | cons y ys ih =>
    by_cases h : x.score < y.score
    · simp only [insertByScoreDesc, if_pos h, List.mem_cons, ih]
      tauto
    · simp only [insertByScoreDesc, if_neg h, List.mem_cons]

theorem pairwise_insertByScoreDesc {x : Ev} {l : List Ev}
    (h : l.Pairwise (fun a b => b.score ≤ a.score)) :
    (insertByScoreDesc x l).Pairwise (fun a b => b.score ≤ a.score) := by
  induction l with
  | nil => simp [insertByScoreDesc]
  | cons y ys ih =>
    rcases List.pairwise_cons.mp h with ⟨h1, h2⟩
    by_cases hlt : x.score < y.score
    · simp only [insertByScoreDesc, if_pos hlt]
      refine List.pairwise_cons.mpr ⟨?_, ih h2⟩
      intro z hz
      rcases mem_insertByScoreDesc.mp hz with rfl | hz'
      · exact le_of_lt hlt
      · exact h1 z hz'
    · simp only [insertByScoreDesc, if_neg hlt]
      refine List.pairwise_cons.mpr ⟨?_, h⟩
      intro z hz
      rcases List.mem_cons.mp hz with rfl | hz'
      · exact le_of_not_lt hlt
      · exact le_trans (h1 z hz') (le_of_not_lt hlt)

theorem pairwise_sortByScoreDesc (l : List Ev) :
    (sortByScoreDesc l).Pairwise (fun a b => b.score ≤ a.score) := by
  induction l with
  | nil => simp [sortByScoreDesc]
  | cons x xs ih =>
    simp only [sortByScoreDesc]
    exact pairwise_insertByScoreDesc ih

theorem perm_insertByScoreDesc (x : Ev) (l : List Ev) :
    List.Perm (insertByScoreDesc x l) (x :: l) := by
  induction l with
  | nil => rfl
  | cons y ys ih =>
    by_cases h : x.score < y.score
    · simp only [insertByScoreDesc, if_pos h]
      exact (ih.cons y).trans (List.Perm.swap x y ys)
    · simp only [insertByScoreDesc, if_neg h]
      exact List.Perm.refl _

theorem perm_sortByScoreDesc (l : List Ev) : List.Perm (sortByScoreDesc l) l := by
  induction l with
  | nil => rfl
  | cons x xs ih =>
    simp only [sortByScoreDesc]
    exact (perm_insertByScoreDesc x (sortByScoreDesc xs)).trans (ih.cons x)

theorem runSubmits_count_false (cap : ℕ) :
    ∀ (n queue : ℕ), (runSubmits cap queue n).count false = n - min n (cap - queue) := by
  intro n
  induction n with
  | zero => intro queue; simp [runSubmits]
  | succ n ih =>
    intro queue
    by_cases h : cap ≤ queue
    · simp only [runSubmits, add_request, if_pos h, List.count_cons, ih queue]
      simp
      omega
    · simp only [runSubmits, add_request, if_neg h, List.count_cons, ih (queue + 1)]
      simp
      omega

/-- The shipped `retrieve_evidence` on its own mock pool returns all three
mock candidates, highest score first. -/
theorem retrieve_evidence_mock_eq :
    retrieve_evidence mock_evidence plan_answer
      = [mock_text_evidence_1, mock_text_evidence_2, mock_table_evidence_1] := by
  have h1 : ¬ (mock_text_evidence_2.score < mock_table_evidence_1.score) := by
    norm_num [mock_text_evidence_2, mock_table_evidence_1]
  have h2 : ¬ (mock_text_evidence_1.score < mock_text_evidence_2.score) := by
    norm_num [mock_text_evidence_1, mock_text_evidence_2]
  simp [retrieve_evidence, mock_evidence, sortByScoreDesc, insertByScoreDesc, h1, h2, plan_answer]

/-! ## Claim theorems -/

/-- Claim C2: when the queue already holds `max_queue_size` items,
`add_request` returns `false` and leaves the size unchanged; a submission
never pushes the size beyond the capacity; and of 1,100 submissions to an
empty queue of capacity 1,000 with no consumer draining it, exactly 100
return `false`. -/
theorem add_request_backpressure :
    (∀ cap queue, cap ≤ queue → add_request cap queue = (false, queue)) ∧
    (∀ cap queue, queue ≤ cap → (add_request cap queue).2 ≤ cap) ∧
    (runSubmits 1000 0 1100).count false = 100 := by
  refine ⟨fun cap queue h => by simp [add_request, h], fun cap queue h => ?_, ?_⟩
  · by_cases hc : cap ≤ queue <;> simp [add_request, hc] <;> omega
  · rw [runSubmits_count_false]
    norm_num

/-- Witness for C2: a queue of capacity 2 holding 2 items rejects the next
request unchanged, and a submission to a queue of size 1 stays within the
capacity. -/
theorem add_request_backpressure_witness :
    add_request 2 2 = (false, 2) ∧ (add_request 2 1).2 ≤ 2 :=
  ⟨add_request_backpressure.1 2 2 (by decide), add_request_backpressure.2.1 2 1 (by decide)⟩

/-- Claim C4: for every non-empty evidence list reaching synthesis the
confidence equals `min(mean of the scores, 0.95)`, and every produced answer
has confidence at most `0.95`. -/
theorem generate_answer_confidence_bound (question : String) (evidence : List Ev)
    (plan : AnswerPlan) :
    (generate_answer question evidence plan).confidence ≤ 95/100 ∧
    (evidence ≠ [] →
      (generate_answer question evidence plan).confidence
        = min ((evidence.map Ev.score).sum / (evidence.length : ℚ)) (95/100)) := by
  by_cases h : evidence = []
  · subst h
    refine ⟨?_, fun hne => absurd rfl hne⟩
    simp only [generate_answer, if_pos rfl]
    norm_num
  · refine ⟨?_, fun _ => by simp [generate_answer, h]⟩
    simp only [generate_answer, if_neg h]
    exact min_le_right _ _

/-- Witness for C4 at one non-empty evidence list: the confidence is exactly
the capped mean of the scores. -/
theorem generate_answer_confidence_bound_witness :
    (generate_answer "q" [mock_text_evidence_1] plan_answer).confidence
      = min (([mock_text_evidence_1].map Ev.score).sum / (([mock_text_evidence_1] : List Ev).length : ℚ))
          (95/100) :=
  (generate_answer_confidence_bound "q" [mock_text_evidence_1] plan_answer).2 (by simp)

/-- Claim C1 (code bug): the shipped pipeline has no confidence-threshold
gate.  A single candidate scoring `0.3`, below the plan's threshold of `0.7`,
still yields a synthesized answer with confidence `0.3` and one citation,
instead of the insufficient-evidence outcome with confidence `0.0` and empty
citations that the claim requires. -/
theorem process_question_missing_threshold_gate :
    low_evidence.score < plan_answer.confidence_threshold ∧
    (process_question [low_evidence] "What is the optimal temperature?").confidence = 3/10 ∧
    (process_question [low_evidence] "What is the optimal temperature?").citations ≠ [] ∧
    (process_question [low_evidence] "What is the optimal temperature?").confidence ≠ 0 := by
  have hret : retrieve_evidence [low_evidence] plan_answer = [low_evidence] := by
    simp [retrieve_evidence, sortByScoreDesc, insertByScoreDesc, plan_answer]
  have hconf : (process_question [low_evidence] "What is the optimal temperature?").confidence
      = 3/10 := by
    simp only [process_question, hret, generate_answer]
    norm_num [low_evidence]
  refine ⟨by norm_num [low_evidence, plan_answer], hconf, ?_, by rw [hconf]; norm_num⟩
  simp [process_question, hret, generate_answer]

/-- Claim C9 (code bug): `generate_answer` performs no contradiction
detection.  On two evidence items asserting incompatible optimal temperatures
(37°C vs 25°C) it returns exactly the same confidence and the same reasoning
payload as on two non-contradictory items with identical scores; nothing in
the result flags a contradiction and the confidence is not reduced. -/
theorem generate_answer_ignores_contradictions :
    (generate_answer "What is the optimal temperature?"
        [contra_evidence_a, contra_evidence_b] plan_answer).confidence
      = (generate_answer "What is the optimal temperature?"
          [plain_evidence_a, plain_evidence_b] plan_answer).confidence ∧
    (generate_answer "What is the optimal temperature?"
        [contra_evidence_a, contra_evidence_b] plan_answer).reasoning
      = (generate_answer "What is the optimal temperature?"
          [plain_evidence_a, plain_evidence_b] plan_answer).reasoning := by
  constructor <;>
    simp [generate_answer, contra_evidence_a, contra_evidence_b, plain_evidence_a,
      plain_evidence_b]

set_option maxRecDepth 4000 in
/-- Claim C5 counterexample: for a source content of 201 characters the
snippet is `content[:200] + '...'`, which has 203 characters — more than the
200 the claim allows. -/
theorem citation_snippet_over_200 :
    ¬ ((mkCitation long_evidence).snippet.length ≤ 200) := by
  decide

/-- Claim C5 amended: every snippet has at most 203 characters; content
longer than 200 characters is truncated to its first 200 characters followed
by the three-character ellipsis marker, and content of at most 200 characters
is kept verbatim. -/
theorem citation_snippet_truncation (ev : Ev) :
    (mkCitation ev).snippet.length ≤ 203 ∧
    (200 < ev.content.length →
      (mkCitation ev).snippet = ev.content.take 200 ++ ['.', '.', '.']) ∧
    (ev.content.length ≤ 200 → (mkCitation ev).snippet = ev.content) := by
  by_cases h : 200 < ev.content.length
  · refine ⟨?_, fun _ => by simp [mkCitation, h], fun hle => absurd h (by omega)⟩
    simp [mkCitation, h, List.length_take]
  · refine ⟨?_, fun hgt => absurd hgt h, fun _ => by simp [mkCitation, h]⟩
    simp [mkCitation, h]
    omega


/-- Witness for the amended C5: the 201-character content is truncated with
the ellipsis, and a short mock content is kept verbatim. -/
theorem citation_snippet_truncation_witness :
    (mkCitation long_evidence).snippet = long_evidence.content.take 200 ++ ['.', '.', '.'] ∧
    (mkCitation mock_text_evidence_1).snippet = mock_text_evidence_1.content :=
  ⟨(citation_snippet_truncation long_evidence).2.1
      (by simp only [long_evidence, List.length_replicate]; omega),
   (citation_snippet_truncation mock_text_evidence_1).2.2 (by decide)⟩

/-- Claim C6 counterexample: two candidates with equal scores in the same
document, on pages 5 and then 2, come back in input order (Python's sort is
stable), not in the `(document_id, page)`-ascending tie-break order the claim
asserts — the page-2 candidate would have to come first. -/
theorem retrieval_tie_break_fails :
    retrieve_evidence [tie_evidence_a, tie_evidence_b] plan_answer
        = [tie_evidence_a, tie_evidence_b] ∧
    ¬ specRankOrdered (retrieve_evidence [tie_evidence_a, tie_evidence_b] plan_answer) := by
  have heq : retrieve_evidence [tie_evidence_a, tie_evidence_b] plan_answer
      = [tie_evidence_a, tie_evidence_b] := by
    simp [retrieve_evidence, sortByScoreDesc, insertByScoreDesc, tie_evidence_a,
      tie_evidence_b, plan_answer]
  refine ⟨heq, ?_⟩
  rw [heq]
  intro hcon
  rcases List.pairwise_cons.mp hcon with ⟨h1, _⟩
  rcases h1 tie_evidence_b (by simp) with h | ⟨_, h | ⟨_, hpage⟩⟩
  · exact absurd h (by norm_num [tie_evidence_a, tie_evidence_b])
  · rw [show tie_evidence_a.document_id = "doc-9" from rfl,
      show tie_evidence_b.document_id = "doc-9" from rfl] at h
    exact absurd h (lt_irrefl _)
  · rw [show tie_evidence_a.page = 5 from rfl, show tie_evidence_b.page = 2 from rfl] at hpage
    omega

/-- Claim C6 amended: every list returned by retrieval is sorted by score
descending, and retrieval is a pure function of the candidate list and the
plan, so repeated calls return the same order; equal-score candidates keep
their input order (stable sort) instead of the `(document_id, page)`
ascending tie-break. -/
theorem retrieve_evidence_sorted_deterministic (candidates : List Ev) (plan : AnswerPlan) :
    (retrieve_evidence candidates plan).Pairwise (fun a b => b.score ≤ a.score) ∧
    retrieve_evidence candidates plan = retrieve_evidence candidates plan :=
  ⟨List.Pairwise.sublist (List.take_sublist _ _) (pairwise_sortByScoreDesc candidates), rfl⟩

/-- Claim C7 counterexample: the shipped retrieval applies no score floor at
all.  On the code's own mock pool, the table candidate scores `0.68`, below
the plan's `0.7` confidence threshold (the only floor-like parameter in the
plan), yet it occupies a slot of the returned list. -/
theorem retrieval_no_score_floor :
    mock_table_evidence_1 ∈ retrieve_evidence mock_evidence plan_answer ∧
    mock_table_evidence_1.score < plan_answer.confidence_threshold := by
  refine ⟨?_, by norm_num [mock_table_evidence_1, plan_answer]⟩
  rw [retrieve_evidence_mock_eq]
  simp

/-- Claim C7 amended: retrieval excludes nothing by score; instead, because
sorting precedes truncation, every candidate left out of the returned list
scores at most every candidate kept, so no returned item ever displaces a
higher-scoring candidate. -/
theorem retrieve_evidence_keeps_top_scores (candidates : List Ev) (plan : AnswerPlan)
    (x y : Ev) (hx : x ∈ retrieve_evidence candidates plan) (hy : y ∈ candidates)
    (hdrop : y ∉ retrieve_evidence candidates plan) : y.score ≤ x.score := by
  simp only [retrieve_evidence] at hx hdrop
  have hsorted := pairwise_sortByScoreDesc candidates
  have hmem : y ∈ sortByScoreDesc candidates := (perm_sortByScoreDesc candidates).mem_iff.mpr hy
  have hsplit : sortByScoreDesc candidates
      = (sortByScoreDesc candidates).take plan.max_evidence
        ++ (sortByScoreDesc candidates).drop plan.max_evidence :=
    (List.take_append_drop _ _).symm
  have hy2 : y ∈ (sortByScoreDesc candidates).drop plan.max_evidence := by
    rcases List.mem_append.mp (hsplit ▸ hmem) with h | h
    · exact absurd h hdrop
    · exact h
  exact (List.pairwise_append.mp (hsplit ▸ hsorted)).2.2 x hx y hy2

/-- Witness for the amended C7: with `max_evidence = 2` the mock pool's table
candidate is dropped and indeed scores no more than the kept top
candidate. -/
theorem retrieve_evidence_keeps_top_scores_witness :
    mock_table_evidence_1.score ≤ mock_text_evidence_1.score := by
  have h1 : ¬ (mock_text_evidence_2.score < mock_table_evidence_1.score) := by
    norm_num [mock_text_evidence_2, mock_table_evidence_1]
  have h2 : ¬ (mock_text_evidence_1.score < mock_text_evidence_2.score) := by
    norm_num [mock_text_evidence_1, mock_text_evidence_2]
  have hret : retrieve_evidence mock_evidence { plan_answer with max_evidence := 2 }
      = [mock_text_evidence_1, mock_text_evidence_2] := by
    simp [retrieve_evidence, mock_evidence, sortByScoreDesc, insertByScoreDesc, h1, h2,
      plan_answer]
  refine retrieve_evidence_keeps_top_scores mock_evidence
    { plan_answer with max_evidence := 2 } mock_text_evidence_1 mock_table_evidence_1
    (by rw [hret]; simp) (by simp [mock_evidence]) ?_
  rw [hret]
  simp [mock_text_evidence_1, mock_text_evidence_2, mock_table_evidence_1]

/-- Claim C8: every citation of the end-to-end pipeline's answer is built
from an evidence candidate of the retrieved (post-gate) list — no orphan
citations — and the number of citations never exceeds
`plan_answer.max_evidence`. -/
theorem process_question_citation_coverage (candidates : List Ev) (question : String) :
    (∀ c ∈ (process_question candidates question).citations,
      ∃ ev ∈ retrieve_evidence candidates plan_answer, c = mkCitation ev) ∧
    (process_question candidates question).citations.length ≤ plan_answer.max_evidence := by
  by_cases h : retrieve_evidence candidates plan_answer = []
  · constructor
    · intro c hc
      simp [process_question, generate_answer, h] at hc
    · simp [process_question, generate_answer, h]
  · have hcit : (process_question candidates question).citations
        = (retrieve_evidence candidates plan_answer).map mkCitation := by
      simp [process_question, generate_answer, h]
    constructor
    · intro c hc
      rw [hcit] at hc
      rcases List.mem_map.mp hc with ⟨ev, hev, rfl⟩
      exact ⟨ev, hev, rfl⟩
    · rw [hcit, List.length_map]
      simp only [retrieve_evidence]
      exact (List.length_take _ _).le.trans (min_le_left _ _)

/-- Witness for C8: a concrete citation of the pipeline run on the mock pool
is backed by a retrieved evidence candidate. -/
theorem process_question_citation_coverage_witness :
    ∃ ev ∈ retrieve_evidence mock_evidence plan_answer,
      mkCitation mock_text_evidence_1 = mkCitation ev := by
  apply (process_question_citation_coverage mock_evidence "q").1 (mkCitation mock_text_evidence_1)
  have h : retrieve_evidence mock_evidence plan_answer ≠ [] := by
    rw [retrieve_evidence_mock_eq]
    simp
  have hcit : (process_question mock_evidence "q").citations
      = (retrieve_evidence mock_evidence plan_answer).map mkCitation := by
    simp [process_question, generate_answer, h]
  rw [hcit, retrieve_evidence_mock_eq]
  simp

/-- Lists zipped with their own image under a map pair each element with its
own image. -/
theorem zip_map_self {α β : Type} (l : List α) (g : α → β) :
    l.zip (l.map g) = l.map (fun a => (a, g a)) := by
  induction l with
  | nil => rfl
  | cons a l ih => simp [ih]

/-- The texts of the requests `process_chunks` builds are exactly the chunk
texts, in chunk order. -/
theorem chunk_requests_texts (document_id : Option String) (chunks : List Chunk) :
    ∀ i, (chunk_requests document_id i chunks).map EmbeddingRequest.text
      = chunks.map Chunk.text := by
  induction chunks with
  | nil => intro i; rfl
  | cons c cs ih => intro i; simp [chunk_requests, chunk_request, ih]

/-- Claim C3: per batch, the provider is called once with all batch texts in
request order (first conjunct: the argument of the single provider call), and
the i-th embedding is attached to the i-th request — each request is paired
with the embedding of its own text, at every position; `process_chunks`
likewise pairs every chunk with the embedding of its own text. -/
theorem process_batch_order_preserved {E : Type} (f : String → E)
    (batch : List EmbeddingRequest) (document_id : Option String) (chunks : List Chunk) :
    (process_batch f batch).1 = batch.map EmbeddingRequest.text ∧
    (process_batch f batch).2 = batch.map (fun r => (r, f r.text)) ∧
    (∀ i : ℕ, ((process_batch f batch).2[i]?) = (batch[i]?).map (fun r => (r, f r.text))) ∧
    process_chunks f document_id chunks = chunks.map (fun c => (c, f c.text)) := by
  have hzip : (process_batch f batch).2 = batch.map (fun r => (r, f r.text)) := by
    simp only [process_batch, List.map_map]
    exact zip_map_self batch (fun r => f r.text)
  refine ⟨rfl, hzip, fun i => ?_, ?_⟩
  · rw [hzip]
    exact List.getElem?_map _ _ _
  · simp only [process_chunks, chunk_requests_texts, List.map_map]
    exact zip_map_self chunks (fun c => f c.text)

/-- The embedding list `process_tables` computes unfolds two at a time: the
schema embedding of the head table, its content embedding, then the rest. -/
theorem table_embedding_list_cons {E : Type} (f : String → E) (document_id : Option String)
    (t : Table) (ts : List Table) :
    ((table_requests document_id (t :: ts)).map EmbeddingRequest.text).map f
      = f (table_schema_to_text t.schema) :: f (table_content_to_text t.data)
          :: ((table_requests document_id ts).map EmbeddingRequest.text).map f := by
  simp [table_requests, schema_request, content_request]

/-- Attachment of the embedding list at positions `2*i` and `2*i + 1` gives
each table the embeddings of its own schema and content texts. -/
theorem attach_embeddings_eq {E : Type} (f : String → E) (d : E) (document_id : Option String) :
    ∀ (ts : List Table) (i : ℕ) (embs : List E),
      (∀ j, embs.getD (2*i + j) d
          = (((table_requests document_id ts).map EmbeddingRequest.text).map f).getD j d) →
      attach_embeddings d embs i ts
        = ts.map (fun t =>
            { table := t
              schema_embedding := f (table_schema_to_text t.schema)
              content_embedding := f (table_content_to_text t.data) }) := by
  intro ts
  induction ts with
  | nil => intro i embs _; rfl
  | cons t ts ih =>
    intro i embs h
    have h0 := h 0
    have h1 := h 1
    rw [table_embedding_list_cons] at h0 h1
    simp only [Nat.add_zero, List.getD_cons_zero, List.getD_cons_succ] at h0 h1
    simp only [attach_embeddings, List.map_cons]
    rw [h0, h1, ih (i + 1) embs ?_]
    intro j
    have hj := h (j + 2)
    rw [table_embedding_list_cons] at hj
    simp only [List.getD_cons_succ] at hj
    rw [show 2*(i+1) + j = 2*i + (j + 2) by ring]
    exact hj

/-- Claim C10: `process_tables` creates exactly two embedding requests per
table — the schema request first, then the content request, in table order
(request positions `2*i` and `2*i + 1` hold table `i`'s requests) — the
content text depends only on the first five data rows, and table `i` receives
the embeddings of its own schema and content texts (positions `2*i` and
`2*i + 1` of the single batch). -/
theorem process_tables_positions {E : Type} (f : String → E) (document_id : Option String)
    (tables : List Table) :
    (table_requests document_id tables).length = 2 * tables.length ∧
    (∀ i : ℕ, (table_requests document_id tables)[2*i]?
      = (tables[i]?).map (schema_request document_id)) ∧
    (∀ i : ℕ, (table_requests document_id tables)[2*i+1]?
      = (tables[i]?).map (content_request document_id)) ∧
    process_tables f document_id tables
      = tables.map (fun t =>
          { table := t
            schema_embedding := f (table_schema_to_text t.schema)
            content_embedding := f (table_content_to_text t.data) }) ∧
    (∀ data : List (List String), table_content_to_text data = table_content_to_text (data.take 5)) := by
  refine ⟨?_, ?_, ?_, ?_, ?_⟩
  · induction tables with
    | nil => rfl
    | cons t ts ih => simp only [table_requests, List.length_cons, ih]; omega
  · intro i
    induction tables generalizing i with
    | nil => simp [table_requests]
    | cons t ts ih =>
      cases i with
      | zero => simp [table_requests]
      | succ i =>
        rw [show 2*(i+1) = (2*i + 1) + 1 by ring]
        simp only [table_requests, List.getElem?_cons_succ]
        exact ih i
  · intro i
    induction tables generalizing i with
    | nil => simp [table_requests]
    | cons t ts ih =>
      cases i with
      | zero => simp [table_requests]
      | succ i =>
        rw [show 2*(i+1) + 1 = (2*i + 1 + 1) + 1 by ring]
        simp only [table_requests, List.getElem?_cons_succ]
        exact ih i
  · refine attach_embeddings_eq f (f "") document_id tables 0 _ (fun j => ?_)
    rw [show 2*0 + j = j by ring]
  · intro data
    by_cases h : data = []
    · subst h; rfl
    · have h5 : data.take 5 ≠ [] := by
        simp [List.take_eq_nil_iff, h]
      simp [table_content_to_text, h, h5, List.take_take]

end LabNotebook
